import Mathlib

/-!
Verification of the run-preserving mutation and structural-insertion logic of
the document-engine CLIs (docx_engine.py, pptx_engine.py, xlsx_engine.py,
pdf_engine.py).

Each Python routine named in the claims is embedded as an executable Lean
definition; user-supplied indices are `Int` (Python ints), document content is
lists and strings, and Python exceptions are an explicit `PyErr` error type
threaded through `Except`.
-/

set_option maxHeartbeats 1000000
set_option linter.unusedVariables false

/-- `matchesAt f s` is true when the character list `f` occurs at the very
beginning of `s` (the check `s.startswith(f)` used to locate an occurrence of
the find string during a left-to-right scan). -/
def matchesAt : List Char → List Char → Bool
  | [], _ => true
  | _ :: _, [] => false
  | a :: f, b :: s => a == b && matchesAt f s

/-- `containsSub f s` is Python's substring test `f in s`. -/
def containsSub (f : List Char) : List Char → Bool
  | [] => f.isEmpty
  | c :: rest => matchesAt f (c :: rest) || containsSub f rest

/-- One left-to-right, non-overlapping replacement pass over `s`, replacing
`f` by `r` — the semantics of Python's `str.replace` for non-empty `f`.
After a match the scan resumes *after* the consumed occurrence and never
re-scans the emitted replacement text.  `fuel` is initialised to `s.length`
and only bounds the recursion. -/
def replGo (f r : List Char) : Nat → List Char → List Char
  | 0, s => s
  | Nat.succ _, [] => []
  | Nat.succ fuel, c :: rest =>
    if matchesAt f (c :: rest) then r ++ replGo f r fuel (rest.drop (f.length - 1))
    else c :: replGo f r fuel rest

/-- Count of non-overlapping, left-to-right occurrences of `f` in `s` — the
semantics of Python's `str.count` for non-empty `f`. -/
def countGo (f : List Char) : Nat → List Char → Nat
  | 0, _ => 0
  | Nat.succ _, [] => 0
  | Nat.succ fuel, c :: rest =>
    if matchesAt f (c :: rest) then 1 + countGo f fuel (rest.drop (f.length - 1))
    else countGo f fuel rest

/-- Python `full_text.replace(find, repl)` (non-empty `find`). -/
def pyReplace (s f r : String) : String :=
  ⟨replGo f.data r.data s.data.length s.data⟩

/-- Python `full_text.count(find)` (non-empty `find`). -/
def pyCount (s f : String) : Nat :=
  countGo f.data s.data.length s.data

/-- Python `find in s`. -/
def occursIn (f s : String) : Bool :=
  containsSub f.data s.data

/-- A formatted run: a text span plus an optional-per-field formatting
descriptor, mirroring the fields collected into `runs_info` by
`find_replace` (bold / italic / underline / font name / font size). -/
structure Run where
  text : String
  bold : Option Bool
  italic : Option Bool
  underline : Option Bool
  fontName : Option String
  fontSize : Option Nat
deriving DecidableEq, Repr

/-- A run with the given text and every formatting field unset. -/
def mkRun (t : String) : Run :=
  { text := t, bold := none, italic := none, underline := none,
    fontName := none, fontSize := none }

/-- `full_text`: the concatenation of all run texts of a paragraph, built by
the `full_text += run.text` loop (python-docx's `para.text` is the same
concatenation). -/
def fullText (runs : List Run) : String :=
  runs.foldl (fun acc r => acc ++ r.text) ""

/-- The single run rebuilt by `replace_in_paragraph` after `para.clear()`:
`new_text` with the first original run's formatting.  Bold, italic and
underline are assigned unconditionally; font name and font size are assigned
only under Python truthiness (`if runs_info[0]['font_name']:`), so an empty
font name or a zero font size is dropped back to unset. -/
def rebuiltRun (r0 : Run) (newText : String) : Run :=
  { text := newText
    bold := r0.bold
    italic := r0.italic
    underline := r0.underline
    fontName :=
      match r0.fontName with
      | some nm => if nm = "" then none else some nm
      | none => none
    fontSize :=
      match r0.fontSize with
      | some sz => if sz = 0 then none else some sz
      | none => none }

/-- `replace_in_paragraph` from `find_replace` (docx_engine.py): guard on the
paragraph text (= run concatenation, so the source's two guards coincide),
replace over the concatenated `full_text`, count occurrences there, then clear
all runs and emit one run carrying the first run's formatting.  Returns the new
run list and the per-block replacement count added to the running total. -/
def replaceInParagraph (runs : List Run) (find rep : String) : List Run × Nat :=
  if occursIn find (fullText runs) then
    let full := fullText runs
    let newText := pyReplace full find rep
    let cnt := pyCount full find
    match runs with
    | [] => ([], cnt)
    | r0 :: _ => ([rebuiltRun r0 newText], cnt)
  else (runs, 0)

deriving instance DecidableEq for Except

/-- Python exceptions raised (or caught) by the engines. -/
inductive PyErr where
  | valueError (msg : String)
  | indexError (msg : String)
  | fileNotFound (msg : String)
  | exc (ty msg : String)
deriving DecidableEq, Repr

/-- `type(e).__name__`, as serialized into the error envelope. -/
def PyErr.ty : PyErr → String
  | .valueError _ => "ValueError"
  | .indexError _ => "IndexError"
  | .fileNotFound _ => "FileNotFoundError"
  | .exc t _ => t

/-- `str(e)`, as serialized into the error envelope. -/
def PyErr.message : PyErr → String
  | .valueError m => m
  | .indexError m => m
  | .fileNotFound m => m
  | .exc _ m => m

/-- The `--position` argument of `insert_paragraph` / `add_table` after
parsing: the literal string `"end"` or an integer. -/
inductive InsertPos where
  | atEnd
  | atIdx (i : Int)
deriving DecidableEq, Repr

/-- The two clamping statements `if insert_idx < 0: insert_idx = 0` and
`if insert_idx > len(...): insert_idx = len(...)`. -/
def clampPos (i : Int) (len : Nat) : Nat :=
  if i < 0 then 0
  else if i > (len : Int) then len
  else i.toNat

/-- Insert `x` so that it ends up at index `k` of `l` (list splice). -/
def insertAt (k : Nat) (x : α) (l : List α) : List α :=
  l.take k ++ x :: l.drop k

/-- `insert_paragraph` (docx_engine.py), on the document's paragraph
sequence.  `"end"` appends via `doc.add_paragraph` and reports
`len(doc.paragraphs) - 1` after the append.  An integer position is clamped
into `[0, len]`; index 0 inserts before `doc.paragraphs[0]` — an `IndexError`
when the document has no paragraphs — and every other index `i` calls
`doc.paragraphs[i - 1].insert_paragraph_before(text)`, which places the new
paragraph immediately *before* paragraph `i - 1`.  Returns the new sequence
and the reported `position` field. -/
def insertParagraph (paras : List String) (pos : InsertPos) (text : String) :
    Except PyErr (List String × Nat) :=
  match pos with
  | .atEnd => .ok (paras ++ [text], paras.length)
  | .atIdx i =>
    let idx := clampPos i paras.length
    if idx = 0 then
      match paras with
      | [] => .error (.indexError "list index out of range")
      | p :: rest => .ok (text :: p :: rest, 0)
    else
      .ok (insertAt (idx - 1) text paras, idx)

/-- A top-level body element of a .docx document: a paragraph or a table. -/
inductive BodyElem where
  | para (text : String)
  | table (rows cols : Int)
deriving DecidableEq, Repr

/-- `doc.paragraphs`: the paragraphs of the body, in body order. -/
def paragraphsOf : List BodyElem → List String
  | [] => []
  | .para t :: rest => t :: paragraphsOf rest
  | .table _ _ :: rest => paragraphsOf rest

/-- The body index of the `j`-th paragraph (python-docx's
`parent.index(paragraph._element)` for `doc.paragraphs[j]`). -/
def paraBodyIndex : List BodyElem → Nat → Nat
  | [], _ => 0
  | .para _ :: _, 0 => 0
  | .para _ :: rest, Nat.succ j => 1 + paraBodyIndex rest j
  | .table _ _ :: rest, j => 1 + paraBodyIndex rest j

/-- The body index of the first paragraph, when one exists. -/
def firstParaBodyIndex (body : List BodyElem) : Option Nat :=
  body.findIdx? fun e =>
    match e with
    | .para _ => true
    | .table _ _ => false

/-- `add_table` (docx_engine.py) on the document body.  Positions are
resolved against the paragraph sequence; with no paragraphs available a
sentinel empty paragraph is appended first (`doc.add_paragraph()`), so the
out-of-bounds branch is never taken.  The created table is appended and then
moved next to the reference paragraph's body element (`-1` marks "move to the
very beginning").  The optional data fill is a guarded best-effort step with
no structural effect and is not modeled. -/
def addTable (body : List BodyElem) (rows cols : Int) (position : Option InsertPos) :
    Except PyErr (List BodyElem) :=
  if rows < 1 ∨ cols < 1 then
    .error (.valueError "Rows and columns must be at least 1")
  else
    let step : List BodyElem × Int :=
      match position with
      | none | some .atEnd =>
        let n := (paragraphsOf body).length
        if n = 0 then (body ++ [BodyElem.para ""], 0)
        else (body, (n : Int) - 1)
      | some (.atIdx i) =>
        let n := (paragraphsOf body).length
        let ia : Int := (clampPos i n : Int) - 1
        if ia < 0 then
          if n ≠ 0 then (body, -1)
          else (body ++ [BodyElem.para ""], 0)
        else (body, ia)
    let b := step.1
    let ia := step.2
    let tbl := BodyElem.table rows cols
    if ia = -1 then
      match firstParaBodyIndex b with
      | some k => .ok (insertAt k tbl b)
      | none => .ok (b ++ [tbl])
    else if 0 ≤ ia ∧ ia < ((paragraphsOf b).length : Int) then
      .ok (insertAt (paraBodyIndex b ia.toNat + 1) tbl b)
    else
      .ok (b ++ [tbl])

/-- `edit_paragraph_text` (docx_engine.py): reject any index outside
`[0, paragraph_count)`, otherwise clear the paragraph and set the new text. -/
def editParagraphText (paras : List String) (idx : Int) (newText : String) :
    Except PyErr (List String) :=
  if idx < 0 ∨ (paras.length : Int) ≤ idx then
    .error (.valueError ("Paragraph index " ++ toString idx ++
      " out of range. Document has " ++ toString paras.length ++ " paragraphs."))
  else
    .ok (paras.set idx.toNat newText)

/-- A .docx table: its rows of cell texts plus the grid's column count
(`len(table.columns)`). -/
structure TableData where
  rows : List (List String)
  cols : Nat
deriving DecidableEq, Repr

/-- `edit_table_cell` (docx_engine.py): reject a table index outside
`[0, table_count)`, a row outside `[0, len(rows))`, or a column outside
`[0, len(columns))`, in that order; otherwise overwrite the addressed cell. -/
def editTableCell (tables : List TableData) (tableIndex row col : Int) (text : String) :
    Except PyErr (List TableData) :=
  if tableIndex < 0 ∨ (tables.length : Int) ≤ tableIndex then
    .error (.valueError ("Table index " ++ toString tableIndex ++
      " out of range. Document has " ++ toString tables.length ++ " tables."))
  else
    let t := (tables.get? tableIndex.toNat).getD ⟨[], 0⟩
    if row < 0 ∨ (t.rows.length : Int) ≤ row then
      .error (.valueError ("Row index " ++ toString row ++
        " out of range. Table has " ++ toString t.rows.length ++ " rows."))
    else if col < 0 ∨ (t.cols : Int) ≤ col then
      .error (.valueError ("Column index " ++ toString col ++
        " out of range. Table has " ++ toString t.cols ++ " columns."))
    else
      let newRows :=
        t.rows.set row.toNat (((t.rows.get? row.toNat).getD []).set col.toNat text)
      .ok (tables.set tableIndex.toNat { t with rows := newRows })

/-- Python `s.lower()` (ASCII case folding as used on shape names). -/
def strLower (s : String) : String :=
  ⟨s.data.map Char.toLower⟩

/-- Python `s.upper()`. -/
def strUpper (s : String) : String :=
  ⟨s.data.map Char.toUpper⟩

/-- Python substring test `pat in s` on already-folded strings. -/
def strContains (s pat : String) : Bool :=
  containsSub pat.data s.data

/-- A slide shape, with the attributes probed by pptx_engine.py:
its name, whether it carries a text frame (`hasattr(shape, "text_frame")` /
`hasattr(shape, "text")`), the string form of its placeholder type when it is
a placeholder, its vertical offset `shape.top`, and its current text. -/
structure Shape where
  name : String
  hasTextFrame : Bool
  placeholderType : Option String
  top : Int
  text : String
deriving DecidableEq, Repr

/-- `find_shape_by_name`: index of the first shape whose lowercased name
contains the lowercased pattern as a substring. -/
def findShapeIdxByName (shapes : List Shape) (pat : String) : Option Nat :=
  shapes.findIdx? fun sh => strContains (strLower sh.name) (strLower pat)

/-- `find_shape_by_text`: index of the first text-bearing shape whose
lowercased text contains the lowercased pattern as a substring. -/
def findShapeIdxByText (shapes : List Shape) (pat : String) : Option Nat :=
  shapes.findIdx? fun sh =>
    sh.hasTextFrame && strContains (strLower sh.text) (strLower pat)

/-- Method 2 of `find_title_shape`: a placeholder whose type string contains
"TITLE" uppercased (this also matches SUBTITLE and CENTER_TITLE). -/
def placeholderIsTitle (sh : Shape) : Bool :=
  match sh.placeholderType with
  | some t => strContains (strUpper t) "TITLE"
  | none => false

/-- Method 3 of `find_title_shape`: among text-bearing shapes, the index of
the one with the smallest `top`; Python's stable sort keeps the earliest shape
on ties. -/
def minTopIdx (shapes : List Shape) : Option Nat :=
  ((shapes.enum.filter fun p => p.2.hasTextFrame).foldl
    (fun acc p =>
      match acc with
      | none => some p
      | some q => if p.2.top < q.2.top then some p else some q) none).map
    fun p => p.1

/-- Fallback methods 2 and 3 of `find_title_shape`, tried in order. -/
def findTitleShapeIdx2 (shapes : List Shape) : Option Nat :=
  match shapes.findIdx? placeholderIsTitle with
  | some i => some i
  | none => minTopIdx shapes

/-- `find_title_shape` (pptx_engine.py), as a shape index: method 1 takes the
first shape whose name contains "title" (case-insensitively) provided that
shape has a text frame; otherwise methods 2 and 3 run in order. -/
def findTitleShapeIdx (shapes : List Shape) : Option Nat :=
  match findShapeIdxByName shapes "title" with
  | some i =>
    match shapes.get? i with
    | some sh => if sh.hasTextFrame then some i else findTitleShapeIdx2 shapes
    | none => findTitleShapeIdx2 shapes
  | none => findTitleShapeIdx2 shapes

/-- `find_shape_by_name` returning the shape itself. -/
def findShapeByName (shapes : List Shape) (pat : String) : Option Shape :=
  (findShapeIdxByName shapes pat).bind fun i => shapes.get? i

/-- `find_title_shape` returning the shape itself. -/
def findTitleShape (shapes : List Shape) : Option Shape :=
  (findTitleShapeIdx shapes).bind fun i => shapes.get? i

/-- A slide: its shapes in shape order and its notes text (when a notes
slide exists). -/
structure Slide where
  shapes : List Shape
  notes : Option String
deriving DecidableEq, Repr

/-- One entry of the `--updates` JSON list accepted by `edit_presentation`:
the slide number plus at most one of the addressing fields. -/
structure Update where
  slide : Option Int
  notes : Option String
  title : Option String
  shape_name : Option String
  shape_text : Option String
  shape : Option Int
  text : Option String
deriving DecidableEq, Repr

/-- An index-addressed text update (`{"slide": n, "shape": i, "text": t}`). -/
def mkShapeUpdate (n i : Int) (t : String) : Update :=
  { slide := some n, notes := none, title := none, shape_name := none,
    shape_text := none, shape := some i, text := some t }

/-- Replace the element at index `k` by `f` of it (in-place mutation of the
object the Python reference points at). -/
def modifyNth (f : α → α) : Nat → List α → List α
  | _, [] => []
  | 0, a :: as => f a :: as
  | Nat.succ n, a :: as => a :: modifyNth f n as

/-- `shape.text_frame.text = t` for the shape at index `i` of the slide. -/
def setShapeText (sl : Slide) (i : Nat) (t : String) : Slide :=
  { sl with shapes := modifyNth (fun sh => { sh with text := t }) i sl.shapes }

/-- One iteration of the update loop of `edit_presentation`
(pptx_engine.py): validate the slide number, then dispatch on `notes`,
`title`, `shape_name`, `shape_text` and finally the index-addressed `shape`
form, raising `ValueError` exactly where the source does.  An update carrying
none of those keys falls through the loop body and changes nothing.  (The
`updated_items` strings accumulated for the success payload are bookkeeping
with no effect on document state and are not modeled.) -/
def applyUpdate (prs : List Slide) (u : Update) : Except PyErr (List Slide) :=
  match u.slide with
  | none =>
    .error (.valueError ("Invalid slide number: none. Presentation has " ++
      toString prs.length ++ " slides."))
  | some n =>
    if n < 1 ∨ (prs.length : Int) < n then
      .error (.valueError ("Invalid slide number: " ++ toString n ++
        ". Presentation has " ++ toString prs.length ++ " slides."))
    else
      let si := (n - 1).toNat
      match prs.get? si with
      | none => .error (.indexError "list index out of range")
      | some sl =>
        match u.notes with
        | some s => .ok (prs.set si { sl with notes := some s })
        | none =>
          match u.title with
          | some ttl =>
            (match findTitleShapeIdx sl.shapes with
             | some i =>
               match sl.shapes.get? i with
               | some sh =>
                 if sh.hasTextFrame then .ok (prs.set si (setShapeText sl i ttl))
                 else .error (.valueError ("No title shape found on slide " ++ toString n))
               | none => .error (.valueError ("No title shape found on slide " ++ toString n))
             | none => .error (.valueError ("No title shape found on slide " ++ toString n)))
          | none =>
            match u.shape_name with
            | some pat =>
              (match findShapeIdxByName sl.shapes pat with
               | none =>
                 .error (.valueError ("No shape with name containing " ++ pat ++
                   " found on slide " ++ toString n))
               | some i =>
                 match u.text with
                 | some t =>
                   (match sl.shapes.get? i with
                    | some sh =>
                      if sh.hasTextFrame then .ok (prs.set si (setShapeText sl i t))
                      else .error (.valueError ("Shape " ++ sh.name ++ " on slide " ++
                        toString n ++ " does not support text"))
                    | none => .error (.indexError "list index out of range"))
                 | none =>
                   .error (.valueError "Update must include text when specifying a shape"))
            | none =>
              match u.shape_text with
              | some pat =>
                (match findShapeIdxByText sl.shapes pat with
                 | none =>
                   .error (.valueError ("No shape with text containing " ++ pat ++
                     " found on slide " ++ toString n))
                 | some i =>
                   match u.text with
                   | some t =>
                     (match sl.shapes.get? i with
                      | some sh =>
                        if sh.hasTextFrame then .ok (prs.set si (setShapeText sl i t))
                        else .error (.valueError ("Shape " ++ sh.name ++ " on slide " ++
                          toString n ++ " does not support text"))
                      | none => .error (.indexError "list index out of range"))
                   | none =>
                     .error (.valueError "Update must include text when specifying a shape"))
              | none =>
                match u.shape with
                | some i =>
                  if i < 0 ∨ (sl.shapes.length : Int) ≤ i then
                    .error (.valueError ("Shape index " ++ toString i ++
                      " out of range on slide " ++ toString n))
                  else
                    (match u.text with
                     | some t =>
                       (match sl.shapes.get? i.toNat with
                        | some sh =>
                          if sh.hasTextFrame then .ok (prs.set si (setShapeText sl i.toNat t))
                          else .error (.valueError ("Shape " ++ toString i ++ " on slide " ++
                            toString n ++ " does not support text"))
                        | none => .error (.indexError "list index out of range"))
                     | none =>
                       .error (.valueError "Update must include text when specifying a shape"))
                | none => .ok prs

/-- The update loop of `edit_presentation`: updates are applied to the
in-memory presentation one after another; the first validation failure raises
out of the loop. -/
def applyUpdates (prs : List Slide) : List Update → Except PyErr (List Slide)
  | [] => .ok prs
  | u :: rest =>
    match applyUpdate prs u with
    | .ok prs2 => applyUpdates prs2 rest
    | .error e => .error e

/-- `edit_presentation` end to end: load the presentation from disk, run the
update loop, and only on success save the mutated presentation back.  The
result pairs the command outcome with the file contents on disk after the
call. -/
def editPresentation (disk : List Slide) (updates : List Update) :
    Except PyErr (List Slide) × List Slide :=
  match applyUpdates disk updates with
  | .ok final => (.ok final, final)
  | .error e => (.error e, disk)

/-- The single JSON object a command prints: a success payload, or the error
envelope `{status: "error", message, type}` (`hasNote` records the extra
`note` key added by the generic exception branch of `recalculate_workbook`). -/
inductive JsonOut where
  | success (tag : String)
  | errObj (message ty : String) (hasNote : Bool)
deriving DecidableEq, Repr

/-- Whether the printed object is the error envelope (`status == "error"`). -/
def JsonOut.isErr : JsonOut → Bool
  | .errObj _ _ _ => true
  | .success _ => false

/-- The `try/except` block shared verbatim by the four engines' `main`
functions: a command body that returns a result prints it and exits 0; a
command body that raises prints the `{status:"error", message, type}` envelope
built from the exception and exits 1.  The returned pair is (printed JSON,
exit code). -/
def runCli (r : Except PyErr JsonOut) : JsonOut × Nat :=
  match r with
  | .ok j => (j, 0)
  | .error e => (JsonOut.errObj (PyErr.message e) (PyErr.ty e) false, 1)

/-- The possible outcomes of the work delegated to the `formulas` library and
the filesystem by `recalculate_workbook` (xlsx_engine.py). -/
inductive RecalcEnv where
  | importMissing
  | pathMissing (msg : String)
  | calcFail (ty msg : String)
  | calcOk
deriving DecidableEq, Repr

/-- `recalculate_workbook` (xlsx_engine.py): every failure is caught
*inside* the function and turned into an error-shaped result dictionary, so
the function itself never raises; only the fully successful path returns a
success payload. -/
def recalculateWorkbook : RecalcEnv → JsonOut
  | .importMissing =>
    .errObj "formulas library not installed. Install with: pip install formulas[excel]"
      "ImportError" false
  | .pathMissing m => .errObj m "FileNotFoundError" false
  | .calcFail t m => .errObj m t true
  | .calcOk => .success "recalculated"

/-- The `recalculate` arm of xlsx_engine's `main`: since
`recalculate_workbook` returns rather than raises, its result always reaches
the success path of the shared `try/except`, whatever the outcome was. -/
def xlsxRecalcCommand (env : RecalcEnv) : JsonOut × Nat :=
  runCli (Except.ok (recalculateWorkbook env))

/-- The outcomes of the external work delegated by `pdf_to_images`
(pdf_engine.py) once the input path exists: with `pdftoppm` absent it falls
back to `pdf2image`, returning a DependencyError-shaped dictionary when
that import also fails; with `pdftoppm` present a non-zero subprocess exit
becomes
a ConversionError-shaped dictionary carrying the captured stderr.  (A missing
input file, by contrast, *raises* `FileNotFoundError` out of the function.) -/
inductive PdfToImagesEnv where
  | depMissing
  | pdf2imageOk
  | convertFail (stderr : String)
  | convertOk
deriving DecidableEq, Repr

/-- `pdf_to_images` (pdf_engine.py): both failure modes above are *returned*
as error-shaped result dictionaries, not raised. -/
def pdfToImages : PdfToImagesEnv → JsonOut
  | .depMissing =>
    .errObj "pdftoppm not found. Install poppler-utils or pip install pdf2image"
      "DependencyError" false
  | .pdf2imageOk => .success "pdf2image"
  | .convertFail err => .errObj err "ConversionError" false
  | .convertOk => .success "pdftoppm"

/-- The `to_images` arm of pdf_engine's `main`: like xlsx `recalculate`, a
returned error-shaped dictionary reaches the success path of the shared
`try/except` and is printed with exit code 0. -/
def pdfToImagesCommand (env : PdfToImagesEnv) : JsonOut × Nat :=
  runCli (Except.ok (pdfToImages env))


/-- The shape named "Subtitle Placeholder" from the spec's shape-resolution
scenario; its lowercased name contains "title" as a substring. -/
def subtitleShape : Shape :=
  { name := "Subtitle Placeholder", hasTextFrame := true, placeholderType := none,
    top := 200, text := "Title" }

/-- The shape named "Title 1" from the spec's shape-resolution scenario. -/
def titleOneShape : Shape :=
  { name := "Title 1", hasTextFrame := true, placeholderType := none,
    top := 50, text := "Welcome" }

/-- A plain text box used in concrete slide states. -/
def demoShape : Shape :=
  { name := "Box 1", hasTextFrame := true, placeholderType := none,
    top := 10, text := "old" }

/-- A one-shape slide used in concrete presentation states. -/
def demoSlide : Slide :=
  { shapes := [demoShape], notes := none }

/-- A valid by-name text update against `demoSlide`. -/
def goodUpd : Update :=
  { slide := some 1, notes := none, title := none, shape_name := some "Box",
    shape_text := none, shape := none, text := some "new" }

/-- An update naming a slide that does not exist. -/
def badUpd : Update := mkShapeUpdate 99 0 "x"

/-- A bold first run, as in the spec's formatting-propagation example. -/
def boldRunA : Run :=
  { text := "A", bold := some true, italic := none, underline := none,
    fontName := none, fontSize := none }

/-- A non-bold second run, as in the spec's formatting-propagation example. -/
def plainRunB : Run :=
  { text := "B", bold := some false, italic := none, underline := none,
    fontName := none, fontSize := none }

/-- A first run carrying an explicit font size of 0 (falsy in Python). -/
def zeroSizeRun : Run :=
  { text := "A", bold := some true, italic := none, underline := none,
    fontName := none, fontSize := some 0 }

theorem matchesAt_length {f s : List Char} (h : matchesAt f s = true) :
    f.length ≤ s.length := by
  induction f generalizing s with
  | nil => simp
  | cons a f ih =>
    cases s with
    | nil => simp [matchesAt] at h
    | cons b s =>
      simp only [matchesAt, Bool.and_eq_true] at h
      simpa [Nat.succ_le_succ_iff] using ih h.2

theorem replGo_of_not_contains (f r : List Char) :
    ∀ fuel s, containsSub f s = false → replGo f r fuel s = s := by
  intro fuel
  induction fuel with
  | zero => intro s _; rfl
  | succ fuel ih =>
    intro s h
    cases s with
    | nil => rfl
    | cons c rest =>
      simp only [containsSub, Bool.or_eq_false_iff] at h
      simp [replGo, h.1, ih rest h.2]

theorem countGo_of_not_contains (f : List Char) :
    ∀ fuel s, containsSub f s = false → countGo f fuel s = 0 := by
  intro fuel
  induction fuel with
  | zero => intro s _; rfl
  | succ fuel ih =>
    intro s h
    cases s with
    | nil => rfl
    | cons c rest =>
      simp only [containsSub, Bool.or_eq_false_iff] at h
      simp [countGo, h.1, ih rest h.2]

/-- Length accounting for the single scan pass: each of the `countGo` matched
occurrences trades `f.length` consumed characters for `r.length` emitted ones,
and nothing else changes length — the replacement output is never re-scanned. -/
theorem replGo_length (f r : List Char) (hf : f ≠ []) :
    ∀ fuel s, s.length ≤ fuel →
      (replGo f r fuel s).length + countGo f fuel s * f.length
        = s.length + countGo f fuel s * r.length := by
  intro fuel
  induction fuel with
  | zero =>
    intro s hs
    have : s = [] := List.eq_nil_of_length_eq_zero (Nat.le_zero.mp hs)
    subst this
    simp [replGo, countGo]
  | succ fuel ih =>
    intro s hs
    cases s with
    | nil => simp [replGo, countGo]
    | cons c rest =>
      by_cases h : matchesAt f (c :: rest) = true
      · have hflen : 1 ≤ f.length := by
          cases f with
          | nil => exact absurd rfl hf
          | cons a f => simp
        have hfle : f.length ≤ rest.length + 1 := by
          simpa using matchesAt_length h
        have hdrop : (rest.drop (f.length - 1)).length = rest.length - (f.length - 1) :=
          List.length_drop _ _
        have hrec : (rest.drop (f.length - 1)).length ≤ fuel := by
          have : rest.length ≤ fuel := by simpa using Nat.succ_le_succ_iff.mp hs
          omega
        have := ih (rest.drop (f.length - 1)) hrec
        simp only [replGo, countGo, h, if_true, List.length_append, List.length_cons,
          Nat.add_mul, Nat.one_mul]
        omega
      · have hrec : rest.length ≤ fuel := by simpa using Nat.succ_le_succ_iff.mp hs
        have := ih rest hrec
        simp only [replGo, countGo, h, if_false, List.length_cons, Bool.false_eq_true,
          ite_false]
        omega

theorem clampPos_zero_len (i : Int) : clampPos i 0 = 0 := by
  unfold clampPos
  split
  · rfl
  · split
    · rfl
    · omega

theorem paragraphsOf_append (xs ys : List BodyElem) :
    paragraphsOf (xs ++ ys) = paragraphsOf xs ++ paragraphsOf ys := by
  induction xs with
  | nil => rfl
  | cons x xs ih =>
    cases x with
    | para t => simp [paragraphsOf, ih]
    | table r c => simp [paragraphsOf, ih]

theorem paraBodyIndex_append_para (xs : List BodyElem) (t : String)
    (h : paragraphsOf xs = []) :
    paraBodyIndex (xs ++ [BodyElem.para t]) 0 = xs.length := by
  induction xs with
  | nil => rfl
  | cons x xs ih =>
    cases x with
    | para u => simp [paragraphsOf] at h
    | table r c =>
      have h2 : paragraphsOf xs = [] := by simpa [paragraphsOf] using h
      simp [paraBodyIndex, ih h2]
      omega

theorem insertAt_of_length_le (k : Nat) (x : α) (l : List α) (h : l.length ≤ k) :
    insertAt k x l = l ++ [x] := by
  induction l generalizing k with
  | nil => simp [insertAt]
  | cons a l ih =>
    cases k with
    | zero => simp at h
    | succ k =>
      have h2 : l.length ≤ k := by simpa using h
      simp [insertAt] at ih ⊢
      exact ih k h2

/-- C1: for every paragraph block with at least one run and every non-empty
find string occurring in the concatenated `full_text`, `replace_in_paragraph`
rewrites the block to exactly one run whose text is `full_text` with every
non-overlapping, left-to-right occurrence of `find` replaced by `rep` in a
single pass, and reports as count the number of those occurrences; the length
identity witnesses that exactly `count` occurrences were traded and produced
output is never re-scanned; the concrete conjuncts check the spec's
single-pass example (`"a" -> "aa"` on `"a"` gives `"aa"`, count 1) and the
run-boundary example (runs `["fo","obar"]`, find `"foobar"` is detected and
the block becomes one run). -/
theorem C1_run_splice_replace (r0 : Run) (rest : List Run) (find rep : String)
    (hne : find ≠ "") (hocc : occursIn find (fullText (r0 :: rest)) = true) :
    replaceInParagraph (r0 :: rest) find rep
      = ([rebuiltRun r0 (pyReplace (fullText (r0 :: rest)) find rep)],
         pyCount (fullText (r0 :: rest)) find)
    ∧ (pyReplace (fullText (r0 :: rest)) find rep).length
        + pyCount (fullText (r0 :: rest)) find * find.length
      = (fullText (r0 :: rest)).length
        + pyCount (fullText (r0 :: rest)) find * rep.length
    ∧ pyReplace "a" "a" "aa" = "aa"
    ∧ pyCount "a" "a" = 1
    ∧ replaceInParagraph [mkRun "fo", mkRun "obar"] "foobar" "baz"
        = ([mkRun "baz"], 1) := by
  refine ⟨?_, ?_, by decide, by decide, by decide⟩
  · simp only [replaceInParagraph]
    rw [if_pos hocc]
  · have hf : find.data ≠ [] := fun h => hne (String.ext (h.trans rfl))
    have h := replGo_length find.data rep.data hf
      (fullText (r0 :: rest)).data.length (fullText (r0 :: rest)).data (le_refl _)
    exact h

theorem C1_run_splice_replace_witness :
    ("a" : String) ≠ "" ∧ occursIn "a" (fullText [mkRun "a"]) = true ∧
    replaceInParagraph [mkRun "a"] "a" "aa"
      = ([rebuiltRun (mkRun "a") (pyReplace (fullText [mkRun "a"]) "a" "aa")],
         pyCount (fullText [mkRun "a"]) "a") :=
  ⟨by decide, by decide,
   (C1_run_splice_replace (mkRun "a") [] "a" "aa" (by decide) (by decide)).1⟩

/-- C5: when the non-empty find string does not occur in the block's
concatenated text, `replace_in_paragraph` is a no-op: the run list is
returned unchanged and the reported count is 0; moreover even the underlying
single-pass replacement and count are the identity and 0 on that text. -/
theorem C5_no_match_noop (runs : List Run) (find rep : String)
    (hfind : find ≠ "") (hnocc : occursIn find (fullText runs) = false) :
    replaceInParagraph runs find rep = (runs, 0)
    ∧ pyReplace (fullText runs) find rep = fullText runs
    ∧ pyCount (fullText runs) find = 0 := by
  refine ⟨?_, ?_, ?_⟩
  · simp only [replaceInParagraph]
    rw [if_neg (by simp [hnocc])]
  · have h := replGo_of_not_contains find.data rep.data
      (fullText runs).data.length (fullText runs).data hnocc
    simpa [pyReplace] using congrArg String.mk h
  · exact countGo_of_not_contains find.data (fullText runs).data.length
      (fullText runs).data hnocc

theorem C5_no_match_noop_witness :
    ("zzz" : String) ≠ "" ∧ occursIn "zzz" (fullText [mkRun "hello"]) = false ∧
    replaceInParagraph [mkRun "hello"] "zzz" "y" = ([mkRun "hello"], 0) :=
  ⟨by decide, by decide,
   (C5_no_match_noop [mkRun "hello"] "zzz" "y" (by decide) (by decide)).1⟩

/-- C6 counterexample: the claim says the rewritten run's formatting
descriptor equals the first original run's descriptor, but a first run with
an explicit font size of 0 (falsy under Python's `if runs_info[0]['font_size']:`
guard) comes back with the font size dropped to unset. -/
theorem C6_counterexample :
    (replaceInParagraph [zeroSizeRun, plainRunB] "A" "C").1.map Run.fontSize = [none]
    ∧ zeroSizeRun.fontSize = some 0 := by
  constructor
  · decide
  · rfl

/-- C6 (amended): after a replacement on a block with at least one run, the
block is exactly one run; its bold, italic and underline equal the first
run's values (unset stays unset), while font name and font size equal the
first run's values except that a font name equal to the empty string or a
font size equal to 0 is dropped to unset by the Python truthiness guards. -/
theorem C6_first_run_formatting (r0 : Run) (rest : List Run) (find rep : String)
    (hfind : find ≠ "") (hocc : occursIn find (fullText (r0 :: rest)) = true) :
    (replaceInParagraph (r0 :: rest) find rep).1
      = [rebuiltRun r0 (pyReplace (fullText (r0 :: rest)) find rep)]
    ∧ ∀ nt : String,
        (rebuiltRun r0 nt).bold = r0.bold
        ∧ (rebuiltRun r0 nt).italic = r0.italic
        ∧ (rebuiltRun r0 nt).underline = r0.underline
        ∧ (r0.fontName ≠ some "" → (rebuiltRun r0 nt).fontName = r0.fontName)
        ∧ (r0.fontName = some "" → (rebuiltRun r0 nt).fontName = none)
        ∧ (r0.fontSize ≠ some 0 → (rebuiltRun r0 nt).fontSize = r0.fontSize)
        ∧ (r0.fontSize = some 0 → (rebuiltRun r0 nt).fontSize = none) := by
  constructor
  · simp only [replaceInParagraph]
    rw [if_pos hocc]
  · intro nt
    refine ⟨rfl, rfl, rfl, ?_, ?_, ?_, ?_⟩
    · intro hn
      cases hfn : r0.fontName with
      | none => simp [rebuiltRun, hfn]
      | some nm =>
        have : nm ≠ "" := fun h => hn (by rw [hfn, h])
        simp [rebuiltRun, hfn, this]
    · intro hn
      simp [rebuiltRun, hn]
    · intro hs
      cases hfs : r0.fontSize with
      | none => simp [rebuiltRun, hfs]
      | some sz =>
        have : sz ≠ 0 := fun h => hs (by rw [hfs, h])
        simp [rebuiltRun, hfs, this]
    · intro hs
      simp [rebuiltRun, hs]

theorem C6_first_run_formatting_witness :
    ("A" : String) ≠ "" ∧ occursIn "A" (fullText [boldRunA, plainRunB]) = true ∧
    (replaceInParagraph [boldRunA, plainRunB] "A" "X").1.map Run.bold = [some true] := by
  refine ⟨by decide, by decide, ?_⟩
  have h := C6_first_run_formatting boldRunA [plainRunB] "A" "X" (by decide) (by decide)
  rw [h.1]
  simpa using (h.2 (pyReplace (fullText [boldRunA, plainRunB]) "A" "X")).1

/-- C7: inserting at target index 0 into a non-empty paragraph sequence
places the new paragraph before the first existing one (the
`doc.paragraphs[0].insert_paragraph_before(text)` branch); on `[P0, P1]` the
result is `[New, P0, P1]` with reported position 0. -/
theorem C7_insert_at_zero (p : String) (rest : List String) (text : String) :
    insertParagraph (p :: rest) (.atIdx 0) text = .ok (text :: p :: rest, 0)
    ∧ insertParagraph ["P0", "P1"] (.atIdx 0) "New" = .ok (["New", "P0", "P1"], 0) := by
  constructor
  · have hc : clampPos 0 (p :: rest).length = 0 := by
      unfold clampPos
      rw [if_neg (by omega), if_neg (by omega)]
      rfl
    simp only [insertParagraph]
    rw [hc]
    simp
  · decide

/-- C2 (code evaluation at the failing inputs): with paragraphs
`[P0, P1, P2]`, an insertion at clamped integer position `i >= 1` lands at
index `i - 1`, because the source calls `insert_paragraph_before` on
`doc.paragraphs[insert_idx - 1]` — contradicting its own
"Insert after the specified paragraph" comment.  In particular position 99
(clamped to 3) yields `[P0, P1, New, P2]`, not the append `[P0, P1, P2, New]`
the claim requires, and position 2 yields `[P0, New, P1, P2]`. -/
theorem C2_insert_position_off_by_one :
    insertParagraph ["P0", "P1", "P2"] (.atIdx 99) "New"
      = .ok (["P0", "P1", "New", "P2"], 3)
    ∧ insertParagraph ["P0", "P1", "P2"] (.atIdx 2) "New"
      = .ok (["P0", "New", "P1", "P2"], 2)
    ∧ insertParagraph ["P0", "P1", "P2"] (.atIdx 1) "New"
      = .ok (["New", "P0", "P1", "P2"], 1) := by
  refine ⟨by decide, by decide, by decide⟩

/-- C3 counterexample: on a slide whose shapes are, in order,
"Subtitle Placeholder" (text "Title") then "Title 1" (text "Welcome"),
title resolution selects the subtitle shape — its lowercased name contains
"title" as a substring and `find_shape_by_name` returns the first such shape —
contradicting the claim that the "Title 1" shape is selected in either order. -/
theorem C3_counterexample_subtitle_first :
    findTitleShape [subtitleShape, titleOneShape] = some subtitleShape
    ∧ subtitleShape.name = "Subtitle Placeholder"
    ∧ titleOneShape.name = "Title 1" :=
  ⟨by decide, rfl, rfl⟩

/-- C3 (amended): the rules run in strict order and the first rule to yield a
candidate wins, but rule (a) returns the *first* shape in shape order whose
lowercased name contains "title" (provided it has a text frame) — so with
"Title 1" first it is selected, while with "Subtitle Placeholder" first the
subtitle shape is selected, since its name also contains "title". -/
theorem C3_title_resolution (shapes : List Shape) (sh : Shape)
    (h : findShapeByName shapes "title" = some sh) (ht : sh.hasTextFrame = true) :
    findTitleShape shapes = some sh
    ∧ findTitleShape [titleOneShape, subtitleShape] = some titleOneShape
    ∧ findTitleShape [subtitleShape, titleOneShape] = some subtitleShape := by
  refine ⟨?_, by decide, by decide⟩
  unfold findShapeByName at h
  rcases Option.bind_eq_some.mp h with ⟨i, hi, hget⟩
  have hget2 : shapes[i]? = some sh := by simpa using hget
  simp [findTitleShape, findTitleShapeIdx, hi, hget, hget2, ht]

theorem C3_title_resolution_witness :
    findShapeByName [subtitleShape, titleOneShape] "title" = some subtitleShape
    ∧ subtitleShape.hasTextFrame = true
    ∧ findTitleShape [subtitleShape, titleOneShape] = some subtitleShape :=
  ⟨by decide, rfl,
   (C3_title_resolution [subtitleShape, titleOneShape] subtitleShape (by decide) rfl).1⟩

/-- C4 counterexample: paragraph insertion at integer position 0 into a
document with zero paragraphs does *not* synthesize a sentinel — the source
evaluates `doc.paragraphs[0]`, which raises `IndexError`. -/
theorem C4_counterexample_integer_insert_into_empty :
    insertParagraph [] (.atIdx 0) "New" = .error (.indexError "list index out of range") := by
  rfl

/-- C4 (amended): table insertion (`add_table`) into a document whose
paragraph sequence is empty never fails: a sentinel empty paragraph is
appended first so an anchor exists, and the table lands right after it, for
every position argument; paragraph insertion into an empty document succeeds
only with position "end" (a plain append) — integer positions raise. -/
theorem C4_sentinel_for_table_insertion :
    (∀ (body : List BodyElem) (rows cols : Int) (position : Option InsertPos),
      paragraphsOf body = [] → 1 ≤ rows → 1 ≤ cols →
      addTable body rows cols position
        = .ok (body ++ [BodyElem.para "", BodyElem.table rows cols]))
    ∧ ∀ t : String, insertParagraph [] .atEnd t = .ok ([t], 0) := by
  constructor
  · intro body rows cols position hp hr hc
    have hguard : ¬ (rows < 1 ∨ cols < 1) := by omega
    rcases position with _ | pos
    · simp [addTable, hguard, hp, paragraphsOf_append, paragraphsOf,
        paraBodyIndex_append_para, insertAt_of_length_le, List.append_assoc]
    · cases pos with
      | atEnd =>
        simp [addTable, hguard, hp, paragraphsOf_append, paragraphsOf,
          paraBodyIndex_append_para, insertAt_of_length_le, List.append_assoc]
      | atIdx i =>
        simp [addTable, hguard, hp, clampPos_zero_len, paragraphsOf_append, paragraphsOf,
          paraBodyIndex_append_para, insertAt_of_length_le, List.append_assoc]
  · intro t
    rfl

theorem C4_sentinel_for_table_insertion_witness :
    paragraphsOf [BodyElem.table 1 1] = []
    ∧ (1 : Int) ≤ 2 ∧ (1 : Int) ≤ 3
    ∧ addTable [BodyElem.table 1 1] 2 3 (some (.atIdx 5))
        = .ok ([BodyElem.table 1 1] ++ [BodyElem.para "", BodyElem.table 2 3]) :=
  ⟨rfl, by decide, by decide,
   C4_sentinel_for_table_insertion.1 [BodyElem.table 1 1] 2 3 (some (.atIdx 5)) rfl
     (by decide) (by decide)⟩

/-- C8: index-addressed read/edit operations reject every index outside
`[0, count)` with a ValueError and never clamp: `edit_paragraph_text` on the
paragraph index, `edit_table_cell` on table, row and column indices, and the
index-addressed shape edit of `edit_presentation` on slide number and shape
index; on in-range indices `edit_paragraph_text` edits exactly the addressed
position. -/
theorem C8_out_of_range_rejection :
    (∀ (paras : List String) (idx : Int) (t : String),
      idx < 0 ∨ (paras.length : Int) ≤ idx →
      editParagraphText paras idx t
        = .error (.valueError ("Paragraph index " ++ toString idx ++
            " out of range. Document has " ++ toString paras.length ++ " paragraphs.")))
    ∧ (∀ (paras : List String) (idx : Int) (t : String),
      0 ≤ idx → idx < (paras.length : Int) →
      editParagraphText paras idx t = .ok (paras.set idx.toNat t))
    ∧ (∀ (tables : List TableData) (ti r c : Int) (t : String),
      ti < 0 ∨ (tables.length : Int) ≤ ti →
      editTableCell tables ti r c t
        = .error (.valueError ("Table index " ++ toString ti ++
            " out of range. Document has " ++ toString tables.length ++ " tables.")))
    ∧ (∀ (tables : List TableData) (ti r c : Int) (t : String) (tbl : TableData),
      0 ≤ ti → ti < (tables.length : Int) → tables.get? ti.toNat = some tbl →
      r < 0 ∨ (tbl.rows.length : Int) ≤ r →
      editTableCell tables ti r c t
        = .error (.valueError ("Row index " ++ toString r ++
            " out of range. Table has " ++ toString tbl.rows.length ++ " rows.")))
    ∧ (∀ (tables : List TableData) (ti r c : Int) (t : String) (tbl : TableData),
      0 ≤ ti → ti < (tables.length : Int) → tables.get? ti.toNat = some tbl →
      0 ≤ r → r < (tbl.rows.length : Int) →
      c < 0 ∨ (tbl.cols : Int) ≤ c →
      editTableCell tables ti r c t
        = .error (.valueError ("Column index " ++ toString c ++
            " out of range. Table has " ++ toString tbl.cols ++ " columns.")))
    ∧ (∀ (prs : List Slide) (n i : Int) (t : String) (sl : Slide),
      1 ≤ n → n ≤ (prs.length : Int) → prs.get? (n - 1).toNat = some sl →
      i < 0 ∨ (sl.shapes.length : Int) ≤ i →
      applyUpdate prs (mkShapeUpdate n i t)
        = .error (.valueError ("Shape index " ++ toString i ++
            " out of range on slide " ++ toString n)))
    ∧ (∀ (prs : List Slide) (n i : Int) (t : String),
      n < 1 ∨ (prs.length : Int) < n →
      applyUpdate prs (mkShapeUpdate n i t)
        = .error (.valueError ("Invalid slide number: " ++ toString n ++
            ". Presentation has " ++ toString prs.length ++ " slides."))) := by
  refine ⟨?_, ?_, ?_, ?_, ?_, ?_, ?_⟩
  · intro paras idx t h
    simp only [editParagraphText]
    rw [if_pos h]
  · intro paras idx t h1 h2
    simp only [editParagraphText]
    rw [if_neg (by omega)]
  · intro tables ti r c t h
    simp only [editTableCell]
    rw [if_pos h]
  · intro tables ti r c t tbl h1 h2 hget h
    simp only [editTableCell]
    rw [if_neg (by omega), hget]
    simp only [Option.getD_some]
    rw [if_pos h]
  · intro tables ti r c t tbl h1 h2 hget hr1 hr2 h
    simp only [editTableCell]
    rw [if_neg (by omega), hget]
    simp only [Option.getD_some]
    rw [if_neg (by omega), if_pos h]
  · intro prs n i t sl h1 h2 hget h
    simp only [applyUpdate, mkShapeUpdate]
    rw [if_neg (by omega), hget]
    simp only []
    rw [if_pos h]
  · intro prs n i t h
    simp only [applyUpdate, mkShapeUpdate]
    rw [if_pos h]

theorem C8_out_of_range_rejection_witness :
    editParagraphText ["a"] 5 "x"
      = .error (.valueError "Paragraph index 5 out of range. Document has 1 paragraphs.")
    ∧ editTableCell [⟨[["c"]], 1⟩] 0 2 0 "x"
      = .error (.valueError "Row index 2 out of range. Table has 1 rows.")
    ∧ applyUpdate [demoSlide] (mkShapeUpdate 1 7 "x")
      = .error (.valueError "Shape index 7 out of range on slide 1") := by
  refine ⟨?_, ?_, ?_⟩
  · rw [C8_out_of_range_rejection.1 ["a"] 5 "x" (by decide)]
    decide
  · rw [C8_out_of_range_rejection.2.2.2.1 [⟨[["c"]], 1⟩] 0 2 0 "x" ⟨[["c"]], 1⟩
      (by decide) (by decide) rfl (by decide)]
    decide
  · rw [C8_out_of_range_rejection.2.2.2.2.2.1 [demoSlide] 1 7 "x" demoSlide
      (by decide) (by decide) rfl (by decide)]
    decide

/-- C9 counterexample: the xlsx `recalculate` command with a missing input
file prints the `{status:"error", message, type}` envelope (built inside
`recalculate_workbook`, which catches its own exceptions) yet exits 0, and
the pdf `to_images` command does the same when `pdftoppm` exits non-zero —
both contradicting the claim that no failing command exits zero. -/
theorem C9_counterexample_recalculate_exits_zero :
    (xlsxRecalcCommand (.pathMissing "File not found: book.xlsx")).2 = 0
    ∧ (xlsxRecalcCommand (.pathMissing "File not found: book.xlsx")).1.isErr = true
    ∧ (pdfToImagesCommand (.convertFail "pdftoppm: I/O Error")).2 = 0
    ∧ (pdfToImagesCommand (.convertFail "pdftoppm: I/O Error")).1.isErr = true :=
  ⟨rfl, rfl, rfl, rfl⟩

/-- C9 (amended): every command prints exactly one JSON object; a command
body that raises reaches the shared `except` block, which prints the error
envelope built from the exception and exits 1 — but two commands have failure
modes that never raise: xlsx `recalculate` catches everything inside
`recalculate_workbook`, and pdf `to_images` returns its DependencyError and
ConversionError outcomes as results; both print the error-shaped object while
exiting 0. -/
theorem C9_error_envelope :
    (∀ e : PyErr, runCli (.error e)
        = (JsonOut.errObj (PyErr.message e) (PyErr.ty e) false, 1))
    ∧ (∀ j : JsonOut, runCli (.ok j) = (j, 0))
    ∧ (∀ env : RecalcEnv, (xlsxRecalcCommand env).2 = 0)
    ∧ (∀ env : RecalcEnv, env ≠ .calcOk → (recalculateWorkbook env).isErr = true)
    ∧ (∀ env : PdfToImagesEnv, (pdfToImagesCommand env).2 = 0)
    ∧ (∀ env : PdfToImagesEnv, env ≠ .pdf2imageOk → env ≠ .convertOk →
        (pdfToImages env).isErr = true) := by
  refine ⟨fun e => rfl, fun j => rfl, fun env => rfl, fun env h => ?_, fun env => rfl,
    fun env h1 h2 => ?_⟩
  · cases env with
    | importMissing => rfl
    | pathMissing m => rfl
    | calcFail t m => rfl
    | calcOk => exact absurd rfl h
  · cases env with
    | depMissing => rfl
    | pdf2imageOk => exact absurd rfl h1
    | convertFail e => rfl
    | convertOk => exact absurd rfl h2

theorem C9_error_envelope_witness :
    RecalcEnv.importMissing ≠ RecalcEnv.calcOk
    ∧ (recalculateWorkbook .importMissing).isErr = true
    ∧ (xlsxRecalcCommand .importMissing).2 = 0
    ∧ PdfToImagesEnv.depMissing ≠ PdfToImagesEnv.pdf2imageOk
    ∧ PdfToImagesEnv.depMissing ≠ PdfToImagesEnv.convertOk
    ∧ (pdfToImages .depMissing).isErr = true
    ∧ (pdfToImagesCommand .depMissing).2 = 0 :=
  ⟨by decide, C9_error_envelope.2.2.2.1 .importMissing (by decide),
   C9_error_envelope.2.2.1 .importMissing, by decide, by decide,
   C9_error_envelope.2.2.2.2.2 .depMissing (by decide) (by decide),
   C9_error_envelope.2.2.2.2.1 .depMissing⟩

/-- C10: if any update in an `edit_presentation` request fails validation,
the exception propagates before `save_presentation_safe` runs, so the file on
disk is exactly the presentation that was loaded — even though earlier
updates in the same request were already applied to the in-memory copy. -/
theorem C10_failure_leaves_disk_unchanged (disk : List Slide) (updates : List Update)
    (e : PyErr) (h : applyUpdates disk updates = .error e) :
    editPresentation disk updates = (.error e, disk) := by
  unfold editPresentation
  rw [h]

theorem C10_failure_leaves_disk_unchanged_witness :
    applyUpdates [demoSlide] [goodUpd, badUpd]
      = .error (.valueError "Invalid slide number: 99. Presentation has 1 slides.")
    ∧ editPresentation [demoSlide] [goodUpd, badUpd]
      = (.error (.valueError "Invalid slide number: 99. Presentation has 1 slides."),
         [demoSlide])
    ∧ applyUpdates [demoSlide] [goodUpd]
      = .ok [{ shapes := [{ demoShape with text := "new" }], notes := none }] := by
  refine ⟨by decide, ?_, by decide⟩
  exact C10_failure_leaves_disk_unchanged [demoSlide] [goodUpd, badUpd] _ (by decide)
